import Mathlib

/-!
Shallow embedding of the core logic of `src/app/layout.tsx` (ProveX
sacrifice calculator).

Modelling conventions:
* JavaScript numbers are modelled as exact rationals (`ℚ`); the source
  performs plain arithmetic (`*`, `/`, `Math.pow` with natural exponents)
  on decimal constants, which we carry out exactly.
* A `Date` produced by `new Date(s + "T00:00:00Z")` is always a UTC
  midnight, so it is modelled by its whole-day count since the epoch
  1970-01-01 (an `Int`).  The source's
  `Math.floor((d.getTime() - BASE_END_DATE.getTime()) / msPerDay)` is an
  exact integer difference of those day counts, because both operands are
  UTC midnights and JavaScript time has no leap seconds.
* Date-string parsing models the `YYYY-MM-DD` ISO form accepted from the
  HTML date input: exactly ten characters, four digit year, two digit
  month `01`-`12`, two digit day valid for that month (proleptic Gregorian
  with the usual leap rule), everything else is invalid (`none`), as
  `new Date(bad + "T00:00:00Z")` yields `NaN`.
-/

/- Batteries marks the arithmetic on `Rat` `irreducible`; re-enable
unfolding inside this file so that concrete schedule values can be settled
by `decide`. -/
attribute [local semireducible] Rat.add Rat.sub Rat.mul Rat.inv Rat.ofScientific

/-- True exactly for Gregorian leap years. -/
def isLeapYear (y : Nat) : Bool :=
  (y % 4 == 0 && y % 100 != 0) || y % 400 == 0

/-- Number of days in month `m` of year `y` (months are 1-based). -/
def daysInMonth (y m : Nat) : Nat :=
  if m = 2 then (if isLeapYear y then 29 else 28)
  else if m = 4 ∨ m = 6 ∨ m = 9 ∨ m = 11 then 30
  else 31

/-- Days since 1970-01-01 of the Gregorian date `y-m-d` (valid for every
`y ≥ 0`, matching ECMAScript UTC date arithmetic). -/
def civilToDays (y m d : Nat) : Int :=
  let yShift := y + 400
  let yAdj := if m ≤ 2 then yShift - 1 else yShift
  let era := yAdj / 400
  let yoe := yAdj % 400
  let mp := (m + 9) % 12
  let doy := (153 * mp + 2) / 5 + (d - 1)
  let doe := yoe * 365 + yoe / 4 - yoe / 100 + doy
  (↑(era * 146097 + doe) : Int) - 719468 - 146097

/-- Numeric value of a decimal digit character. -/
def digitVal (c : Char) : Nat := c.toNat - 48

/-- Parse a `YYYY-MM-DD` string to its day count since 1970-01-01; `none`
models `Number.isNaN(new Date(s + "T00:00:00Z").getTime())`. -/
def parseDateUTC (s : String) : Option Int :=
  match s.data with
  | [y1, y2, y3, y4, h1, m1, m2, h2, d1, d2] =>
    if y1.isDigit && y2.isDigit && y3.isDigit && y4.isDigit && h1 == '-' &&
        m1.isDigit && m2.isDigit && h2 == '-' && d1.isDigit && d2.isDigit then
      let y := ((digitVal y1 * 10 + digitVal y2) * 10 + digitVal y3) * 10 + digitVal y4
      let m := digitVal m1 * 10 + digitVal m2
      let d := digitVal d1 * 10 + digitVal d2
      if 1 ≤ m && m ≤ 12 && 1 ≤ d && d ≤ daysInMonth y m then
        some (civilToDays y m d)
      else none
    else none
  | _ => none

/-- `const BASE_RATE = 1` (src/app/layout.tsx line 40). -/
def BASE_RATE : ℚ := 1

/-- `const DAILY_DECAY = 0.0625` (line 41). -/
def DAILY_DECAY : ℚ := 625 / 10000

/-- `const START_DATE = new Date("2025-11-11T00:00:00Z")` (line 43). -/
def START_DATE : Int := civilToDays 2025 11 11

/-- `const BASE_END_DATE = new Date("2025-12-02T00:00:00Z")` (line 44). -/
def BASE_END_DATE : Int := civilToDays 2025 12 2

/-- `const END_DATE = new Date("2026-01-09T00:00:00Z")` (line 45). -/
def END_DATE : Int := civilToDays 2026 1 9

/-- `const MAX_RATE = 10.0115` (line 46). -/
def MAX_RATE : ℚ := 100115 / 10000

/-- Branch structure of `computeRateForDate` (lines 73-92) on an already
parsed date, given as whole days since the epoch. -/
def rateForDay (d : Int) : ℚ :=
  if d < START_DATE then BASE_RATE
  else if d > END_DATE then MAX_RATE
  else if d ≤ BASE_END_DATE then BASE_RATE
  else
    let decayDays := (d - BASE_END_DATE).toNat
    let newRate := BASE_RATE * (1 + DAILY_DECAY) ^ decayDays
    if newRate > MAX_RATE then MAX_RATE else newRate

/-- `computeRateForDate` (lines 66-93): empty or unparsable date strings
yield `none` (the source's `null`), otherwise the schedule rate. -/
def computeRateForDate (dateStr : String) : Option ℚ :=
  if dateStr = "" then none
  else (parseDateUTC dateStr).map rateForDay

example : parseDateUTC "2025-11-11" = some 20403 := by decide
example : parseDateUTC "2025-12-02" = some 20424 := by decide
example : parseDateUTC "2026-01-09" = some 20462 := by decide
example : parseDateUTC "2025-13-01" = none := by decide
example : computeRateForDate "2025-12-03" = some (17 / 16) := by decide
example : computeRateForDate "2026-01-09" = some MAX_RATE := by decide

/-- Longest leading run of decimal digits: accumulated value, number of
digits consumed, and the remaining characters. -/
def takeDigits (acc cnt : Nat) : List Char → Nat × Nat × List Char
  | [] => (acc, cnt, [])
  | c :: cs =>
    if c.isDigit then takeDigits (acc * 10 + digitVal c) (cnt + 1) cs
    else (acc, cnt, c :: cs)

/-- Model of JavaScript `parseFloat` on decimal literals: optional leading
whitespace and sign, digits with an optional fraction and exponent part,
trailing garbage ignored; `none` models `NaN` (no digit could be read). -/
def jsParseFloat (s : String) : Option ℚ :=
  let cs := s.data.dropWhile fun c => c == ' ' || c == '\t' || c == '\n' || c == '\r'
  let sgn : ℚ := match cs with
    | '-' :: _ => -1
    | _ => 1
  let cs1 : List Char := match cs with
    | '-' :: r => r
    | '+' :: r => r
    | _ => cs
  let ipart := takeDigits 0 0 cs1
  let fpart : Nat × Nat × List Char := match ipart.2.2 with
    | '.' :: r => takeDigits 0 0 r
    | _ => (0, 0, ipart.2.2)
  if ipart.2.1 = 0 ∧ fpart.2.1 = 0 then none
  else
    let mantissa : ℚ := sgn * ((ipart.1 : ℚ) + (fpart.1 : ℚ) / (10 : ℚ) ^ fpart.2.1)
    let epart : Option Int := match fpart.2.2 with
      | c :: r =>
        if c == 'e' || c == 'E' then
          let esgn : Int := match r with
            | '-' :: _ => -1
            | _ => 1
          let r1 : List Char := match r with
            | '-' :: r2 => r2
            | '+' :: r2 => r2
            | _ => r
          let ep := takeDigits 0 0 r1
          if ep.2.1 = 0 then none else some (esgn * (ep.1 : Int))
        else none
      | [] => none
    match epart with
    | none => some mantissa
    | some e => some (mantissa * (10 : ℚ) ^ e)

/-- JavaScript `x || d` on a parse result: `NaN` (`none`) and `0` are falsy
and select the default, every other number is kept. -/
def jsOr (x : Option ℚ) (dflt : ℚ) : ℚ :=
  match x with
  | none => dflt
  | some v => if v = 0 then dflt else v

/-- Result triple of the guarded points computation. -/
structure PointsResult where
  basePoints : ℚ
  totalPoints : ℚ
  effectivePerUsd : ℚ
deriving DecidableEq

/-- The guarded arithmetic of `HomePage`'s `useMemo` body
(src/app/layout.tsx lines 113-122): points are computed only when both the
amount and the rate are strictly positive, otherwise all three outputs
stay `0`. -/
def computePoints (usdAmount ratePer10k bonusX : ℚ) : PointsResult :=
  if 0 < usdAmount ∧ 0 < ratePer10k then
    let basePoints := usdAmount * (10000 / ratePer10k)
    let totalPoints := basePoints * bonusX
    let effectivePerUsd := totalPoints / usdAmount
    ⟨basePoints, totalPoints, effectivePerUsd⟩
  else ⟨0, 0, 0⟩

/-- Everything `HomePage`'s `useMemo` returns (lines 101-132). -/
structure HomeMemo where
  usdAmount : ℚ
  ratePer10k : ℚ
  bonusX : ℚ
  basePoints : ℚ
  totalPoints : ℚ
  effectivePerUsd : ℚ
deriving DecidableEq

/-- `HomePage`'s `useMemo` body (lines 108-132): parse the three text
inputs with the `parseFloat(x) || default` idiom (lines 109-111), then run
the guarded points computation. -/
def computeMemo (usd rate bonus : String) : HomeMemo :=
  let usdAmount := jsOr (jsParseFloat usd) 0
  let ratePer10k := jsOr (jsParseFloat rate) 0
  let bonusX := jsOr (jsParseFloat bonus) 1
  let p := computePoints usdAmount ratePer10k bonusX
  ⟨usdAmount, ratePer10k, bonusX, p.basePoints, p.totalPoints, p.effectivePerUsd⟩

example : jsParseFloat "1.0000" = some 1 := by decide
example : jsParseFloat "0" = some 0 := by decide
example : jsParseFloat "" = none := by decide
example : jsParseFloat "abc" = none := by decide
example : jsParseFloat "2.2743" = some (22743 / 10000) := by decide
example : jsParseFloat "1e3" = some 1000 := by decide
example : jsParseFloat "-2.5xyz" = some (-(5 / 2)) := by decide
example : (computeMemo "40000" "1.0000" "1").basePoints = 400000000 := by decide
example : (computeMemo "40000" "1.0000" "2.2743").totalPoints = 909720000 := by decide
example : (computeMemo "1000" "1" "0").bonusX = 1 := by decide

/-- Left-pad a fractional part to four digits. -/
def pad4 (n : Nat) : String :=
  if n < 10 then "000" ++ toString n
  else if n < 100 then "00" ++ toString n
  else if n < 1000 then "0" ++ toString n
  else toString n

/-- Model of `Number.prototype.toFixed(4)`: the nearest multiple of
`1/10000` (ties choose the larger candidate, per ECMAScript) rendered with
exactly four digits after the point.  The schedule only ever formats
positive rates; negative values are rendered from the magnitude of the
rounded numerator. -/
def toFixed4 (x : ℚ) : String :=
  let n : Int := ⌊x * 10000 + 1 / 2⌋
  let m := n.natAbs
  let body := toString (m / 10000) ++ "." ++ pad4 (m % 10000)
  if n < 0 then "-" ++ body else body

/-- The four `useState` text fields of `HomePage` (lines 96-99). -/
structure CalcState where
  usd : String
  rate : String
  bonus : String
  sacrificeDate : String
deriving DecidableEq

/-- Initial component state: `useState` defaults of lines 96-99. -/
def initialState : CalcState :=
  ⟨"1000", toFixed4 BASE_RATE, "2.0", "2025-11-11"⟩

/-- `handleDateChange` (lines 134-140): store the picked date; when the
schedule yields a rate, store its `toFixed(4)` rendering, otherwise leave
the rate field untouched. -/
def handleDateChange (value : String) (st : CalcState) : CalcState :=
  let st1 := { st with sacrificeDate := value }
  match computeRateForDate value with
  | none => st1
  | some computed => { st1 with rate := toFixed4 computed }

/-- `handleUseToday` (lines 142-150): identical flow with the clock's
current `YYYY-MM-DD` string, which the embedding receives as an argument. -/
def handleUseToday (todayIso : String) (st : CalcState) : CalcState :=
  let st1 := { st with sacrificeDate := todayIso }
  match computeRateForDate todayIso with
  | none => st1
  | some computed => { st1 with rate := toFixed4 computed }

example : toFixed4 BASE_RATE = "1.0000" := by decide
example : toFixed4 (17 / 16) = "1.0625" := by decide
example : (handleDateChange "2025-12-06" initialState).rate = "1.2744" := by decide
example : (handleDateChange "bogus" initialState).rate = "1.0000" := by decide

lemma start_le_flatEnd : START_DATE ≤ BASE_END_DATE := by decide

lemma flatEnd_lt_end : BASE_END_DATE < END_DATE := by decide

lemma one_le_max_rate : (1 : ℚ) ≤ MAX_RATE := by decide

lemma one_le_growth_base : (1 : ℚ) ≤ 1 + DAILY_DECAY := by decide

/-- On or before the flat-end date (this includes every day before the
window start) the schedule returns the base rate. -/
lemma rateForDay_flat {d : Int} (h : d ≤ BASE_END_DATE) :
    rateForDay d = BASE_RATE := by
  have hbe := flatEnd_lt_end
  simp only [rateForDay]
  split_ifs with h1 h2 <;> first | rfl | (exfalso; omega)

/-- Strictly after the window end the schedule returns the cap. -/
lemma rateForDay_after {d : Int} (h : END_DATE < d) :
    rateForDay d = MAX_RATE := by
  have hsb := start_le_flatEnd
  have hbe := flatEnd_lt_end
  simp only [rateForDay]
  split_ifs with h1 <;> first | rfl | (exfalso; omega)

/-- In the growth sub-period the schedule is the compounded base rate,
clamped at the cap. -/
lemma rateForDay_growth {d : Int} (h1 : BASE_END_DATE < d) (h2 : d ≤ END_DATE) :
    rateForDay d =
      if BASE_RATE * (1 + DAILY_DECAY) ^ (d - BASE_END_DATE).toNat > MAX_RATE
      then MAX_RATE
      else BASE_RATE * (1 + DAILY_DECAY) ^ (d - BASE_END_DATE).toNat := by
  have hsb := start_le_flatEnd
  have ha : ¬ d < START_DATE := by omega
  have hb : ¬ d > END_DATE := by omega
  have hc : ¬ d ≤ BASE_END_DATE := by omega
  simp only [rateForDay, if_neg ha, if_neg hb, if_neg hc]

/-- The compounded value is at least the base rate `1`. -/
lemma one_le_growthVal (d : Int) :
    (1 : ℚ) ≤ BASE_RATE * (1 + DAILY_DECAY) ^ (d - BASE_END_DATE).toNat := by
  simp only [BASE_RATE, one_mul]
  exact one_le_pow₀ one_le_growth_base

/-- The compounded value is monotone in the date. -/
lemma growthVal_mono {d1 d2 : Int} (h : d1 ≤ d2) :
    BASE_RATE * (1 + DAILY_DECAY) ^ (d1 - BASE_END_DATE).toNat ≤
      BASE_RATE * (1 + DAILY_DECAY) ^ (d2 - BASE_END_DATE).toNat := by
  have hn : (d1 - BASE_END_DATE).toNat ≤ (d2 - BASE_END_DATE).toNat := by omega
  simp only [BASE_RATE, one_mul]
  exact pow_le_pow_right₀ one_le_growth_base hn

lemma clamp_le_max (x : ℚ) : (if x > MAX_RATE then MAX_RATE else x) ≤ MAX_RATE := by
  split_ifs with h
  · exact le_refl _
  · exact le_of_not_lt h

lemma one_le_clamp {x : ℚ} (hx : 1 ≤ x) :
    1 ≤ (if x > MAX_RATE then MAX_RATE else x) := by
  split_ifs with h
  · exact one_le_max_rate
  · exact hx

lemma clamp_mono {x y : ℚ} (h : x ≤ y) :
    (if x > MAX_RATE then MAX_RATE else x) ≤ (if y > MAX_RATE then MAX_RATE else y) := by
  split_ifs with h1 h2 h3
  · exact le_refl _
  · exact le_of_lt (lt_of_lt_of_le h1 h)
  · exact le_of_not_lt h1
  · exact h

/-- The schedule is non-decreasing on parsed days. -/
lemma rateForDay_mono {d1 d2 : Int} (h : d1 ≤ d2) :
    rateForDay d1 ≤ rateForDay d2 := by
  have hbe := flatEnd_lt_end
  rcases le_or_lt d1 BASE_END_DATE with hd1 | hd1
  · rw [rateForDay_flat hd1]
    rcases le_or_lt d2 BASE_END_DATE with hd2 | hd2
    · rw [rateForDay_flat hd2]
    · rcases le_or_lt d2 END_DATE with hd2e | hd2e
      · rw [rateForDay_growth hd2 hd2e]
        exact one_le_clamp (one_le_growthVal d2)
      · rw [rateForDay_after hd2e]
        exact one_le_max_rate
  · rcases le_or_lt d2 END_DATE with hd2e | hd2e
    · rw [rateForDay_growth hd1 (le_trans h hd2e),
        rateForDay_growth (lt_of_lt_of_le hd1 h) hd2e]
      exact clamp_mono (growthVal_mono h)
    · rw [rateForDay_after hd2e]
      rcases le_or_lt d1 END_DATE with hd1e | hd1e
      · rw [rateForDay_growth hd1 hd1e]
        exact clamp_le_max _
      · rw [rateForDay_after hd1e]

/-- A string that parses to a day is not empty, so `computeRateForDate`
reaches the schedule. -/
lemma computeRateForDate_of_parse {s : String} {d : Int}
    (h : parseDateUTC s = some d) :
    computeRateForDate s = some (rateForDay d) := by
  have hs : s ≠ "" := by
    intro he
    rw [he] at h
    rw [(rfl : parseDateUTC "" = none)] at h
    exact Option.noConfusion h
  unfold computeRateForDate
  rw [if_neg hs, h, Option.map_some']

/-- The three parsed inputs of the memo are exactly the `parseFloat`-with-
default parses of the three text fields. -/
lemma computeMemo_inputs (u r b : String) :
    (computeMemo u r b).usdAmount = jsOr (jsParseFloat u) 0 ∧
    (computeMemo u r b).ratePer10k = jsOr (jsParseFloat r) 0 ∧
    (computeMemo u r b).bonusX = jsOr (jsParseFloat b) 1 :=
  ⟨rfl, rfl, rfl⟩

/-- C1: the claim predicts rate `1.0000` on `2025-12-03`, but
`computeRateForDate` computes `decayDays = 1` for that date (one whole day
after `BASE_END_DATE`), so it returns `1.0625`, not the base rate. -/
theorem rate_first_growth_day_cex :
    computeRateForDate "2025-12-03" ≠ some BASE_RATE := by decide

/-- C1 (amended): on `2025-12-03`, the first day of the growth sub-period,
`computeRateForDate` returns `BASE_RATE × 1.0625 ^ 1 = 1.0625`: the day
count since the flat-end date is `1`, not `0`. -/
theorem rate_first_growth_day :
    computeRateForDate "2025-12-03" = some (BASE_RATE * (1 + DAILY_DECAY) ^ 1) := by
  decide

/-- C2: for positive amount and rate the points computation returns
`basePoints = usdAmount × (10000 / ratePer10k)`,
`totalPoints = basePoints × bonusX` and
`effectivePerUsd = totalPoints / usdAmount`; concretely `40000` USD at rate
`1.0000` gives `400,000,000` base points, and `909,720,000` total points
with a `2.2743` bonus. -/
theorem computePoints_formula (a r b : ℚ) (ha : 0 < a) (hr : 0 < r) :
    (computePoints a r b).basePoints = a * (10000 / r) ∧
    (computePoints a r b).totalPoints = a * (10000 / r) * b ∧
    (computePoints a r b).effectivePerUsd = a * (10000 / r) * b / a ∧
    (computePoints 40000 1 1).basePoints = 400000000 ∧
    (computePoints 40000 1 (22743 / 10000)).totalPoints = 909720000 := by
  have hg : 0 < a ∧ 0 < r := ⟨ha, hr⟩
  refine ⟨?_, ?_, ?_, by decide, by decide⟩ <;>
    simp only [computePoints, if_pos hg]

theorem computePoints_formula_witness :
    (computePoints 40000 1 2).basePoints = 40000 * (10000 / 1) ∧
    (computePoints 40000 1 2).totalPoints = 40000 * (10000 / 1) * 2 ∧
    (computePoints 40000 1 2).effectivePerUsd = 40000 * (10000 / 1) * 2 / 40000 ∧
    (computePoints 40000 1 1).basePoints = 400000000 ∧
    (computePoints 40000 1 (22743 / 10000)).totalPoints = 909720000 :=
  computePoints_formula 40000 1 2 (by decide) (by decide)

/-- C3: the claim says parsed numeric text is always used at its parsed
value, naming the bonus text `"0"` in particular; but the source's
`parseFloat(bonus) || 1` treats the parsed value `0` as falsy, so the
multiplier actually used is `1`. -/
theorem bonus_text_zero_cex :
    jsParseFloat "0" = some 0 ∧
    (computeMemo "1000" "1.0000" "0").bonusX = 1 ∧
    ((1 : ℚ) = 0 → False) := by decide

/-- C3 (amended): unparsable or absent amount and rate text default to
`0` and unparsable or absent bonus text defaults to `1`, never an error;
text parsing to a nonzero number is used at its parsed value, while text
parsing to `0` is treated like unparsable text by the `||` idiom — in
particular the bonus text `"0"` yields the multiplier `1`, not `0`. -/
theorem memo_input_defaults (u r b : String) :
    (jsParseFloat u = none → (computeMemo u r b).usdAmount = 0) ∧
    (jsParseFloat r = none → (computeMemo u r b).ratePer10k = 0) ∧
    (jsParseFloat b = none → (computeMemo u r b).bonusX = 1) ∧
    (∀ v : ℚ, jsParseFloat u = some v → v ≠ 0 → (computeMemo u r b).usdAmount = v) ∧
    (∀ v : ℚ, jsParseFloat r = some v → v ≠ 0 → (computeMemo u r b).ratePer10k = v) ∧
    (∀ v : ℚ, jsParseFloat b = some v → v ≠ 0 → (computeMemo u r b).bonusX = v) ∧
    (jsParseFloat b = some 0 → (computeMemo u r b).bonusX = 1) := by
  obtain ⟨hu, hr, hb⟩ := computeMemo_inputs u r b
  refine ⟨?_, ?_, ?_, ?_, ?_, ?_, ?_⟩
  · intro h; rw [hu, h]; rfl
  · intro h; rw [hr, h]; rfl
  · intro h; rw [hb, h]; rfl
  · intro v hv hne; rw [hu, hv]; simp [jsOr, hne]
  · intro v hv hne; rw [hr, hv]; simp [jsOr, hne]
  · intro v hv hne; rw [hb, hv]; simp [jsOr, hne]
  · intro h; rw [hb, h]; simp [jsOr]

theorem memo_input_defaults_witness :
    (computeMemo "abc" "" "2.5").usdAmount = 0 ∧
    (computeMemo "abc" "" "2.5").ratePer10k = 0 ∧
    (computeMemo "abc" "" "2.5").bonusX = 5 / 2 := by
  obtain ⟨h1, h2, _, _, _, h6, _⟩ := memo_input_defaults "abc" "" "2.5"
  exact ⟨h1 (by decide), h2 (by decide), h6 (5 / 2) (by decide) (by decide)⟩

/-- C4: for every valid date strictly after the flat-end date and up to
the window end, `computeRateForDate` returns
`BASE_RATE × (1 + DAILY_DECAY) ^ daysElapsed` with
`daysElapsed = date − flatEnd` in whole UTC days, clamped at the cap when
the compounded value exceeds it. -/
theorem rateForDate_growth_region (s : String) (d : Int)
    (hparse : parseDateUTC s = some d)
    (h1 : BASE_END_DATE < d) (h2 : d ≤ END_DATE) :
    computeRateForDate s =
      some (if BASE_RATE * (1 + DAILY_DECAY) ^ (d - BASE_END_DATE).toNat > MAX_RATE
            then MAX_RATE
            else BASE_RATE * (1 + DAILY_DECAY) ^ (d - BASE_END_DATE).toNat) := by
  rw [computeRateForDate_of_parse hparse, rateForDay_growth h1 h2]

theorem rateForDate_growth_region_witness :
    computeRateForDate "2025-12-10" =
      some (if BASE_RATE * (1 + DAILY_DECAY) ^ ((20432 : Int) - BASE_END_DATE).toNat > MAX_RATE
            then MAX_RATE
            else BASE_RATE * (1 + DAILY_DECAY) ^ ((20432 : Int) - BASE_END_DATE).toNat) :=
  rateForDate_growth_region "2025-12-10" 20432 (by decide) (by decide) (by decide)

/-- C5: every valid date on or before the flat-end date `2025-12-02` —
including every date strictly before the window start — yields exactly the
base rate. -/
theorem rateForDate_flat_region (s : String) (d : Int)
    (hparse : parseDateUTC s = some d) (h : d ≤ BASE_END_DATE) :
    computeRateForDate s = some BASE_RATE := by
  rw [computeRateForDate_of_parse hparse, rateForDay_flat h]

theorem rateForDate_flat_region_witness :
    computeRateForDate "2025-12-02" = some BASE_RATE :=
  rateForDate_flat_region "2025-12-02" 20424 (by decide) (by decide)

/-- C6: every valid date on or after the window end `2026-01-09` yields
exactly the capped maximum rate: on the end date itself the compounded
value `1.0625 ^ 38` already exceeds the cap and is clamped, and later
dates return the cap directly. -/
theorem rateForDate_capped_region (s : String) (d : Int)
    (hparse : parseDateUTC s = some d) (h : END_DATE ≤ d) :
    computeRateForDate s = some MAX_RATE := by
  rw [computeRateForDate_of_parse hparse]
  rcases eq_or_lt_of_le h with he | hlt
  · rw [← he, rateForDay_growth flatEnd_lt_end (le_refl _), if_pos (by decide)]
  · rw [rateForDay_after hlt]

theorem rateForDate_capped_region_witness :
    computeRateForDate "2026-01-09" = some MAX_RATE :=
  rateForDate_capped_region "2026-01-09" 20462 (by decide) (by decide)

/-- C7: the schedule is monotonically non-decreasing over the full valid
date domain: whenever two date strings parse to days `d1 ≤ d2`, the rates
`computeRateForDate` returns for them are defined and non-decreasing. -/
theorem rateForDate_monotone (s1 s2 : String) (d1 d2 : Int)
    (h1 : parseDateUTC s1 = some d1) (h2 : parseDateUTC s2 = some d2)
    (hle : d1 ≤ d2) :
    computeRateForDate s1 = some (rateForDay d1) ∧
    computeRateForDate s2 = some (rateForDay d2) ∧
    rateForDay d1 ≤ rateForDay d2 :=
  ⟨computeRateForDate_of_parse h1, computeRateForDate_of_parse h2,
    rateForDay_mono hle⟩

theorem rateForDate_monotone_witness :
    computeRateForDate "2025-11-20" = some (rateForDay 20412) ∧
    computeRateForDate "2025-12-25" = some (rateForDay 20447) ∧
    rateForDay 20412 ≤ rateForDay 20447 :=
  rateForDate_monotone "2025-11-20" "2025-12-25" 20412 20447
    (by decide) (by decide) (by decide)

/-- C8: an unparsable date string (the empty string included) makes
`computeRateForDate` return the invalid marker `none` rather than a
number, and `handleDateChange` then leaves the displayed rate text
unchanged. -/
theorem rateForDate_invalid_marker (s : String) (st : CalcState)
    (h : parseDateUTC s = none) :
    computeRateForDate s = none ∧ (handleDateChange s st).rate = st.rate := by
  have hc : computeRateForDate s = none := by
    unfold computeRateForDate
    split_ifs with he
    · rfl
    · rw [h]; rfl
  refine ⟨hc, ?_⟩
  unfold handleDateChange
  rw [hc]

theorem rateForDate_invalid_marker_witness :
    computeRateForDate "" = none ∧
    (handleDateChange "" initialState).rate = initialState.rate :=
  rateForDate_invalid_marker "" initialState (by decide)

/-- C9: a zero amount, a zero rate, or a negative rate short-circuits the
guarded computation: all three outputs are `0` for any bonus multiplier,
and the total function never divides by the offending value. -/
theorem computePoints_degenerate_zero (a r b : ℚ) (h : a = 0 ∨ r = 0 ∨ r < 0) :
    (computePoints a r b).basePoints = 0 ∧
    (computePoints a r b).totalPoints = 0 ∧
    (computePoints a r b).effectivePerUsd = 0 := by
  have hng : ¬ (0 < a ∧ 0 < r) := by
    rintro ⟨ha, hr⟩
    rcases h with h | h | h
    · subst h; exact lt_irrefl 0 ha
    · subst h; exact lt_irrefl 0 hr
    · exact lt_irrefl 0 (lt_trans hr h)
  unfold computePoints
  rw [if_neg hng]
  exact ⟨rfl, rfl, rfl⟩

theorem computePoints_degenerate_zero_witness :
    (computePoints 0 5 3).basePoints = 0 ∧
    (computePoints 0 5 3).totalPoints = 0 ∧
    (computePoints 0 5 3).effectivePerUsd = 0 :=
  computePoints_degenerate_zero 0 5 3 (Or.inl rfl)

/-- C10: whenever a date selection (picker or the "Use today" button)
yields a valid schedule rate `r`, the stored rate text is `toFixed4 r` —
the rate rounded to four decimal places — and that stored text, not the
exact schedule value, is what the points computation consumes. -/
theorem handlers_store_toFixed4 (s : String) (st : CalcState) (r : ℚ)
    (h : computeRateForDate s = some r) :
    (handleDateChange s st).rate = toFixed4 r ∧
    (handleUseToday s st).rate = toFixed4 r ∧
    computeMemo (handleDateChange s st).usd (handleDateChange s st).rate
        (handleDateChange s st).bonus =
      computeMemo st.usd (toFixed4 r) st.bonus := by
  have h1 : (handleDateChange s st).rate = toFixed4 r := by
    unfold handleDateChange
    rw [h]
  have h3 : (handleDateChange s st).usd = st.usd := by
    unfold handleDateChange
    rw [h]
  have h4 : (handleDateChange s st).bonus = st.bonus := by
    unfold handleDateChange
    rw [h]
  refine ⟨h1, ?_, by rw [h1, h3, h4]⟩
  unfold handleUseToday
  rw [h]

theorem handlers_store_toFixed4_witness :
    ((handleDateChange "2025-12-06" initialState).rate = toFixed4 (83521 / 65536) ∧
     (handleUseToday "2025-12-06" initialState).rate = toFixed4 (83521 / 65536) ∧
     computeMemo (handleDateChange "2025-12-06" initialState).usd
         (handleDateChange "2025-12-06" initialState).rate
         (handleDateChange "2025-12-06" initialState).bonus =
       computeMemo initialState.usd (toFixed4 (83521 / 65536)) initialState.bonus) ∧
    toFixed4 (83521 / 65536) = "1.2744" ∧
    jsParseFloat "1.2744" = some (1593 / 1250) ∧
    ((1593 : ℚ) / 1250 = 83521 / 65536 → False) :=
  ⟨handlers_store_toFixed4 "2025-12-06" initialState (83521 / 65536) (by decide),
   by decide, by decide, by decide⟩
